import Mathlib

/-
Verification of the query-result normalization and aggregation pipeline of
src/azerbaijaniretromusics.py.

The Python program wraps a SPARQL endpoint (class WikiDataQueryResults),
flattens the endpoint's nested JSON bindings into plain dictionaries
(__transform2dicts), tabulates them with pandas (execute_query), and derives
aggregate views of the albums table (release-year counts, performer counts,
top-10 views, scatter data) before rendering charts.

The embedding below translates each of those pieces into Lean.  Python dicts
are modelled as association lists (which, like Python dicts, preserve
insertion order and have unique keys).  Calls into pandas are modelled from
pandas' documented behaviour, at the granularity the program observes, and
each such model is marked in its doc comment.
-/

namespace AzRetro

/-- A single cell of a SPARQL JSON binding: the nested structure each query
variable maps to.  Per the wire contract it always carries a `value` field;
the remaining metadata (`type`, `datatype`, `xml:lang`, ...) is kept as an
association list.  The source reads exactly `result[key]['value']`
(src/azerbaijaniretromusics.py line 44). -/
structure Cell where
  value : String
  meta : List (String × String) := []
deriving DecidableEq

/-- One RawBinding row: a mapping from variable names to cells, as returned
inside `results.bindings` by the endpoint. -/
abbrev RawBinding := List (String × Cell)

/-- One flattened row: a mapping from variable names directly to scalar
values. -/
abbrev FlatRow := List (String × String)

/-- Body of the inner loop of `WikiDataQueryResults.__transform2dicts`
(lines 41-45): `for key in result: new_result[key] = result[key]['value']`.
Iterating a Python dict yields its keys in insertion order, so the output
association list keeps the input's key order. -/
def transformRow (result : RawBinding) : FlatRow :=
  result.map (fun kv => (kv.1, kv.2.value))

/-- `WikiDataQueryResults.__transform2dicts` (lines 33-46): flatten every
binding row. -/
def transform2dicts (results : List RawBinding) : List FlatRow :=
  results.map transformRow

/-- Model of the column set of `pandas.DataFrame(list_of_dicts)`: the union
of the keys of all row dicts, in order of first appearance. -/
def dfColumns (rows : List FlatRow) : List String :=
  rows.foldl
    (fun cols row =>
      row.foldl (fun cs kv => if kv.1 ∈ cs then cs else cs ++ [kv.1]) cols)
    []

/-- Model of a pandas DataFrame as built by `pd.DataFrame(query_results)`
(line 65): the column set together with the underlying rows.  A key absent
from a row is an explicit absence (the row's association list simply lacks
it). -/
structure DataFrame where
  columns : List String
  rows : List FlatRow
deriving DecidableEq

/-- Build the DataFrame of `execute_query` from the flattened rows. -/
def mkDataFrame (rows : List FlatRow) : DataFrame :=
  ⟨dfColumns rows, rows⟩

/-- The failure taxonomy of a query execution: transport failure, malformed
response shape (the `convert()['results']['bindings']` access failing), or
an endpoint-side query error.  The Python code installs no handler for any
of them, so they all propagate to the caller as one undistinguished failed
round-trip. -/
inductive QueryExecutionError where
  | transportFailure (msg : String)
  | malformedResponse (msg : String)
  | endpointQueryError (msg : String)
deriving DecidableEq

/-- Outcome of the endpoint round-trip
`self.sparql.query().convert()['results']['bindings']` (line 55): either a
failure or the list of raw binding rows. -/
abbrev Response := Except QueryExecutionError (List RawBinding)

/-- `WikiDataQueryResults._load` (lines 48-56): take the round-trip outcome
and flatten the bindings.  A raised exception propagates unhandled, which
the `Except` bind models. -/
def load (response : Response) : Except QueryExecutionError (List FlatRow) :=
  match response with
  | .error e => .error e
  | .ok bindings => .ok (transform2dicts bindings)

/-- `WikiDataQueryResults.execute_query` (lines 58-65): `_load`, then
`pd.DataFrame(query_results)`.  There is no retry and no handler: a failure
in `_load` propagates unchanged. -/
def execute_query (response : Response) : Except QueryExecutionError DataFrame :=
  match load response with
  | .error e => .error e
  | .ok rs => .ok (mkDataFrame rs)

/-! ### Claims C1, C2, C4, C10: the fetch path -/

/-- Lookup of a key after `transformRow` is the `value` field of the cell the
key mapped to. -/
theorem lookup_transformRow (row : RawBinding) (k : String) :
    (transformRow row).lookup k = (row.lookup k).map Cell.value := by
  induction row with
  | nil => rfl
  | cons kv rest ih =>
    obtain ⟨k', c⟩ := kv
    simp only [transformRow, List.map_cons, List.lookup_cons] at *
    cases h : k == k' <;> simp [h, ih]

/-- C1: flattening correctness.  For every RawBinding row, the FlatRow maps
each variable key present in the row to exactly the nested `value` field
(first conjunct), preserves the key set (second conjunct), and every value
appearing in the output is some cell's `value` field, so no metadata field
other than `value` ever appears in the output mapping (third conjunct). -/
theorem transformRow_flattening_correct (row : RawBinding) (k : String)
    (p : String × String) (hp : p ∈ transformRow row) :
    (transformRow row).lookup k = (row.lookup k).map Cell.value ∧
    (transformRow row).map Prod.fst = row.map Prod.fst ∧
    p.2 ∈ row.map (fun kv => kv.2.value) := by
  refine ⟨lookup_transformRow row k, ?_, ?_⟩
  · simp [transformRow]
  · rcases List.mem_map.mp hp with ⟨kv, hkv, hkvp⟩
    exact List.mem_map.mpr ⟨kv, hkv, by rw [← hkvp]⟩

/-- Witness for C1 at a concrete one-variable row. -/
theorem transformRow_flattening_correct_witness :
    (("a", "x") ∈ transformRow [("a", Cell.mk "x" [("type", "literal")])]) ∧
    ((transformRow [("a", Cell.mk "x" [("type", "literal")])]).lookup "a" =
        (([("a", Cell.mk "x" [("type", "literal")])] : RawBinding).lookup "a").map Cell.value ∧
      (transformRow [("a", Cell.mk "x" [("type", "literal")])]).map Prod.fst =
        ([("a", Cell.mk "x" [("type", "literal")])] : RawBinding).map Prod.fst ∧
      ("a", "x").2 ∈ ([("a", Cell.mk "x" [("type", "literal")])] : RawBinding).map
        (fun kv => kv.2.value)) :=
  ⟨by decide,
   transformRow_flattening_correct [("a", Cell.mk "x" [("type", "literal")])] "a"
     ("a", "x") (by decide)⟩

/-- C2: execute failure mode.  When the endpoint round-trip fails with any
`QueryExecutionError` (transport failure, malformed response, or
endpoint-side query error), `execute_query` fails with exactly that error —
the single dedicated error kind — and never returns a (partial) DataFrame;
there is no retry and nothing is recovered, so the caller halts. -/
theorem execute_query_error_propagation (e : QueryExecutionError) (df : DataFrame) :
    execute_query (Except.error e) = Except.error e ∧
    execute_query (Except.error e) ≠ Except.ok df := by
  refine ⟨rfl, ?_⟩
  intro h
  simp [execute_query, load] at h

/-- C4: row-count and order preservation.  For every nonempty list of
RawBinding rows, `__transform2dicts` yields exactly one FlatRow per input
row, and the i-th output row is the flattening of the i-th input row. -/
theorem transform2dicts_count_order (results : List RawBinding) (i : Nat)
    (hne : results ≠ []) :
    (transform2dicts results).length = results.length ∧
    (transform2dicts results)[i]? = results[i]?.map transformRow := by
  constructor
  · simp [transform2dicts]
  · simp [transform2dicts, List.getElem?_map]

/-- Witness for C4 at a concrete one-row input. -/
theorem transform2dicts_count_order_witness :
    ([[("a", Cell.mk "x" [])]] : List RawBinding) ≠ [] ∧
    ((transform2dicts [[("a", Cell.mk "x" [])]]).length =
        ([[("a", Cell.mk "x" [])]] : List RawBinding).length ∧
      (transform2dicts [[("a", Cell.mk "x" [])]])[0]? =
        ([[("a", Cell.mk "x" [])]] : List RawBinding)[0]?.map transformRow) :=
  ⟨by decide, transform2dicts_count_order [[("a", Cell.mk "x" [])]] 0 (by decide)⟩

/-- C10: empty-result edge case.  When the endpoint's bindings list is
empty, flattening returns the empty list and `execute_query` succeeds with
an empty DataFrame of zero rows rather than failing. -/
theorem execute_query_empty_bindings :
    transform2dicts [] = [] ∧
    execute_query (Except.ok []) = Except.ok (mkDataFrame []) ∧
    (mkDataFrame (transform2dicts [])).rows.length = 0 ∧
    (mkDataFrame (transform2dicts [])).columns = [] := by
  refine ⟨rfl, rfl, rfl, rfl⟩

/-! ### Models of the pandas aggregation pipeline (lines 129-156) -/

/-- Model of `pd.to_datetime(s, errors='coerce')` observed through
`.dt.year`, the only observation the program makes of the parsed dates
(lines 130-131): the year of the parsed timestamp, or `none` for `NaT` when
the string is unparseable (it does not start with four digits). -/
def parseYear (s : String) : Option Nat :=
  let cs := s.toList.take 4
  if cs.length = 4 ∧ cs.all (fun c => c.isDigit) then
    some (cs.foldl (fun n c => 10 * n + (c.toNat - 48)) 0)
  else none

/-- Model of the distinct values of a pandas Series in order of first
appearance (the key order pandas' hash table produces inside
`value_counts`), with an accumulator of already-seen values. -/
def uniquesAux [DecidableEq α] (seen : List α) : List α → List α
  | [] => []
  | x :: xs => if x ∈ seen then uniquesAux seen xs else x :: uniquesAux (x :: seen) xs

/-- Distinct values of a list in order of first appearance. -/
def uniquesInOrder [DecidableEq α] (xs : List α) : List α :=
  uniquesAux [] xs

/-- Each distinct value paired with its number of occurrences, in order of
first appearance: the pre-sorting content of `Series.value_counts()`. -/
def withCounts [DecidableEq α] (xs : List α) : List (α × Nat) :=
  (uniquesInOrder xs).map (fun k => (k, xs.count k))

/-- Comparison used by `value_counts`: descending by count. -/
def countGe (p q : α × Nat) : Prop :=
  q.2 ≤ p.2

instance : DecidableRel (@countGe α) :=
  fun p q => Nat.decLe q.2 p.2

instance : IsTotal (α × Nat) countGe :=
  ⟨fun a b => Nat.le_total b.2 a.2⟩

instance : IsTrans (α × Nat) countGe :=
  ⟨fun _ _ _ hab hbc => Nat.le_trans hbc hab⟩

/-- Model of `Series.value_counts()` (lines 136, 145): counts of the
distinct values, sorted descending by count with a stable sort, so that
equal counts keep first-appearance order. -/
def value_counts [DecidableEq α] (xs : List α) : List (α × Nat) :=
  List.insertionSort countGe (withCounts xs)

/-- Comparison used by `sort_index` on a year-indexed series: ascending by
index. -/
def keyLe (p q : Nat × Nat) : Prop :=
  p.1 ≤ q.1

instance : DecidableRel keyLe :=
  fun p q => Nat.decLe p.1 q.1

instance : IsTotal (Nat × Nat) keyLe :=
  ⟨fun a b => Nat.le_total a.1 b.1⟩

instance : IsTrans (Nat × Nat) keyLe :=
  ⟨fun _ _ _ => Nat.le_trans⟩

/-- Model of `.sort_index()` on a year-count series (line 136): sort by
index ascending. -/
def sort_index (l : List (Nat × Nat)) : List (Nat × Nat) :=
  List.insertionSort keyLe l

/-- Lines 130-132: `release_years` is the year of every parseable
publication date, with `NaT`/`NaN` rows dropped (`dropna`). -/
def release_years (dates : List String) : List Nat :=
  dates.filterMap parseYear

/-- Line 136: `release_years.value_counts().sort_index()` — albums counted
per release year, ascending by year. -/
def release_year_counts (dates : List String) : List (Nat × Nat) :=
  sort_index (value_counts (release_years dates))

/-- Line 145: `performer_album_counts = albums_df['performerLabel'].value_counts()`. -/
def performer_album_counts (performerLabels : List String) : List (String × Nat) :=
  value_counts performerLabels

/-! ### Helper lemmas on the aggregation models -/

theorem mem_uniquesAux [DecidableEq α] (x : α) (l : List α) :
    ∀ seen : List α, x ∈ uniquesAux seen l ↔ x ∈ l ∧ x ∉ seen := by
  induction l with
  | nil => intro seen; simp [uniquesAux]
  | cons y ys ih =>
    intro seen
    by_cases hy : y ∈ seen
    · rw [uniquesAux, if_pos hy, ih]
      constructor
      · rintro ⟨hxl, hxs⟩
        exact ⟨List.mem_cons.mpr (Or.inr hxl), hxs⟩
      · rintro ⟨hxl, hxs⟩
        rcases List.mem_cons.mp hxl with rfl | hxl
        · exact absurd hy hxs
        · exact ⟨hxl, hxs⟩

    · rw [uniquesAux, if_neg hy]
      constructor
      · intro hx
        rcases List.mem_cons.mp hx with rfl | hx
        · exact ⟨List.mem_cons_self _ _, hy⟩
        · rcases (ih (y :: seen)).mp hx with ⟨hxl, hxs⟩
          refine ⟨List.mem_cons.mpr (Or.inr hxl),
            fun hxseen => hxs (List.mem_cons.mpr (Or.inr hxseen))⟩
      · rintro ⟨hxl, hxs⟩
        rcases List.mem_cons.mp hxl with rfl | hxl
        · exact List.mem_cons_self _ _
        · by_cases hxy : x = y
          · exact hxy ▸ List.mem_cons_self _ _
          · exact List.mem_cons.mpr
              (Or.inr ((ih (y :: seen)).mpr
                ⟨hxl, fun h => (List.mem_cons.mp h).elim hxy hxs⟩))

theorem mem_uniquesInOrder [DecidableEq α] {x : α} {l : List α} :
    x ∈ uniquesInOrder l ↔ x ∈ l := by
  rw [uniquesInOrder, mem_uniquesAux]
  simp

theorem nodup_uniquesAux [DecidableEq α] (l : List α) :
    ∀ seen : List α, (uniquesAux seen l).Nodup := by
  induction l with
  | nil => intro seen; simp [uniquesAux]
  | cons y ys ih =>
    intro seen
    by_cases hy : y ∈ seen
    · rw [uniquesAux, if_pos hy]; exact ih seen
    · rw [uniquesAux, if_neg hy]
      refine List.nodup_cons.mpr ⟨fun hmem => ?_, ih (y :: seen)⟩
      exact ((mem_uniquesAux y ys (y :: seen)).mp hmem).2 (List.mem_cons_self _ _)

theorem nodup_uniquesInOrder [DecidableEq α] (l : List α) :
    (uniquesInOrder l).Nodup :=
  nodup_uniquesAux l []

theorem mem_withCounts [DecidableEq α] {y : α} {c : Nat} {l : List α} :
    (y, c) ∈ withCounts l ↔ y ∈ l ∧ c = l.count y := by
  rw [withCounts, List.mem_map]
  constructor
  · rintro ⟨k, hk, hkeq⟩
    have h1 : k = y := congrArg Prod.fst hkeq
    have h2 : l.count k = c := congrArg Prod.snd hkeq
    subst h1
    exact ⟨mem_uniquesInOrder.mp hk, h2.symm⟩
  · rintro ⟨hy, rfl⟩
    exact ⟨y, mem_uniquesInOrder.mpr hy, rfl⟩

theorem value_counts_perm [DecidableEq α] (xs : List α) :
    List.Perm (value_counts xs) (withCounts xs) :=
  List.perm_insertionSort countGe (withCounts xs)

theorem mem_value_counts [DecidableEq α] {y : α} {c : Nat} {xs : List α} :
    (y, c) ∈ value_counts xs ↔ y ∈ xs ∧ c = xs.count y := by
  rw [(value_counts_perm xs).mem_iff, mem_withCounts]

theorem pairwise_ne_fst_withCounts [DecidableEq α] (xs : List α) :
    (withCounts xs).Pairwise (fun a b => a.1 ≠ b.1) := by
  rw [withCounts, List.pairwise_map]
  exact nodup_uniquesInOrder xs

/-! ### Claims C6 and C7: counts by year -/

/-- C6: unparseable-date exclusion.  Appending a row whose publication-date
field fails to parse (such as the literal string "unknown") leaves the
year aggregation — both the `release_years` series after `dropna` and the
counts-by-year view — unchanged, while the underlying table keeps the row
(its row count grows by one and the row is still a member); the parse
failure is coerced to `NaT`, never raised. -/
theorem unparseable_date_excluded (dates : List String) (d : String)
    (h : parseYear d = none) :
    release_years (dates ++ [d]) = release_years dates ∧
    release_year_counts (dates ++ [d]) = release_year_counts dates ∧
    (dates ++ [d]).length = dates.length + 1 ∧
    d ∈ dates ++ [d] := by
  have hy : release_years (dates ++ [d]) = release_years dates := by
    simp [release_years, List.filterMap_append, h]
  refine ⟨hy, ?_, by simp, by simp⟩
  rw [release_year_counts, hy, release_year_counts]

/-- Witness for C6: the literal string "unknown" does not parse. -/
theorem unparseable_date_excluded_witness :
    parseYear "unknown" = none ∧
    (release_years ["1965-05-01T00:00:00Z", "unknown"] =
        release_years ["1965-05-01T00:00:00Z"] ∧
      release_year_counts ["1965-05-01T00:00:00Z", "unknown"] =
        release_year_counts ["1965-05-01T00:00:00Z"] ∧
      (["1965-05-01T00:00:00Z", "unknown"] : List String).length =
        (["1965-05-01T00:00:00Z"] : List String).length + 1 ∧
      "unknown" ∈ ["1965-05-01T00:00:00Z", "unknown"]) :=
  ⟨by decide, unparseable_date_excluded ["1965-05-01T00:00:00Z"] "unknown" (by decide)⟩

/-- C7: year-grouping determinism.  The counts-by-year view is strictly
ascending in the year (first conjunct); an entry `(y, c)` occurs in it
exactly when some row's date parses to year `y` and `c` is the number of
rows parsing to `y` (second conjunct); and on publication dates 1965, 1965,
1970 the view is exactly the mapping 1965 to 2 and 1970 to 1, in ascending
year order (third conjunct). -/
theorem release_year_counts_spec (dates : List String) (y c : Nat) :
    (release_year_counts dates).Pairwise (fun a b => a.1 < b.1) ∧
    ((y, c) ∈ release_year_counts dates ↔
      y ∈ release_years dates ∧ c = (release_years dates).count y) ∧
    release_year_counts
        ["1965-05-01T00:00:00Z", "1965-11-20T00:00:00Z", "1970-06-01T00:00:00Z"] =
      [(1965, 2), (1970, 1)] := by
  refine ⟨?_, ?_, by decide⟩
  · have hsorted : (release_year_counts dates).Pairwise keyLe :=
      List.sorted_insertionSort keyLe (value_counts (release_years dates))
    have hperm :
        List.Perm (release_year_counts dates) (withCounts (release_years dates)) :=
      (List.perm_insertionSort keyLe _).trans (value_counts_perm _)
    have hne : (release_year_counts dates).Pairwise (fun a b => a.1 ≠ b.1) :=
      (hperm.pairwise_iff (fun {a b} hab => hab.symm)).mpr
        (pairwise_ne_fst_withCounts _)
    exact (hsorted.and hne).imp (fun hab => Nat.lt_of_le_of_ne hab.1 hab.2)
  · have hperm :
        List.Perm (release_year_counts dates) (withCounts (release_years dates)) :=
      (List.perm_insertionSort keyLe _).trans (value_counts_perm _)
    rw [hperm.mem_iff, mem_withCounts]

/-! ### Claim C5: top-10 performer view -/

theorem mem_withCounts_pair [DecidableEq α] {p : α × Nat} {l : List α} :
    p ∈ withCounts l ↔ p.1 ∈ l ∧ p.2 = l.count p.1 := by
  obtain ⟨y, c⟩ := p
  exact mem_withCounts

/-- C5: top-10 performer view.  First part: for every performer column with
15 distinct performers of strictly distinct album counts, the head-10 of
`performer_album_counts` has exactly 10 entries, is strictly descending by
count, and each of its entries is a genuine performer with its genuine
album count that strictly exceeds the count of every entry left out of the
head-10 — i.e. the view is exactly the 10 performers with the highest
counts, in descending order.  Second part: for every performer column,
entries with equal counts keep their first-encountered relative order (the
descending sort is stable). -/
theorem performer_album_counts_top10 :
    (∀ performers : List String,
      (uniquesInOrder performers).length = 15 →
      (withCounts performers).Pairwise (fun a b => a.2 ≠ b.2) →
      ((performer_album_counts performers).take 10).length = 10 ∧
      ((performer_album_counts performers).take 10).Pairwise (fun a b => b.2 < a.2) ∧
      (∀ r ∈ (performer_album_counts performers).take 10,
        r.1 ∈ performers ∧ r.2 = performers.count r.1 ∧
        ∀ s ∈ (performer_album_counts performers).drop 10, s.2 < r.2)) ∧
    (∀ (l : List String) (a b : String × Nat),
      a.2 = b.2 → List.Sublist [a, b] (withCounts l) →
      List.Sublist [a, b] (performer_album_counts l)) := by
  constructor
  · intro performers h15 hdist
    have hperm :
        List.Perm (performer_album_counts performers) (withCounts performers) :=
      value_counts_perm performers
    have hsorted : (performer_album_counts performers).Pairwise countGe :=
      List.sorted_insertionSort countGe (withCounts performers)
    have hne :
        (performer_album_counts performers).Pairwise (fun a b => a.2 ≠ b.2) :=
      (hperm.pairwise_iff (fun {a b} hab => hab.symm)).mpr hdist
    have hstrict :
        (performer_album_counts performers).Pairwise (fun a b => b.2 < a.2) :=
      (hsorted.and hne).imp
        (fun hab => Nat.lt_of_le_of_ne hab.1 (fun heq => hab.2 heq.symm))
    have hlen : (performer_album_counts performers).length = 15 := by
      rw [hperm.length_eq, withCounts, List.length_map, h15]
    refine ⟨by simp [List.length_take, hlen], hstrict.sublist (List.take_sublist 10 _), ?_⟩
    intro r hr
    have hrV : r ∈ performer_album_counts performers :=
      (List.take_sublist 10 _).mem hr
    obtain ⟨hr1, hr2⟩ := mem_withCounts_pair.mp (hperm.mem_iff.mp hrV)
    refine ⟨hr1, hr2, ?_⟩
    intro s hs
    have happ :
        ((performer_album_counts performers).take 10 ++
          (performer_album_counts performers).drop 10).Pairwise
            (fun a b => b.2 < a.2) := by
      rw [List.take_append_drop]
      exact hstrict
    exact (List.pairwise_append.mp happ).2.2 r hr s hs
  · intro l a b hab hsub
    show List.Sublist [a, b] (List.insertionSort countGe (withCounts l))
    exact List.pair_sublist_insertionSort (Nat.le_of_eq hab.symm) hsub

/-- Fifteen distinct performers with strictly distinct album counts
(15 albums for Alpha down to 1 album for Omicron), used to witness the
top-10 claim. -/
def fifteenPerformers : List String :=
  ([("Alpha", 15), ("Beta", 14), ("Gamma", 13), ("Delta", 12), ("Epsilon", 11),
    ("Zeta", 10), ("Eta", 9), ("Theta", 8), ("Iota", 7), ("Kappa", 6),
    ("Lambda", 5), ("Mu", 4), ("Nu", 3), ("Xi", 2), ("Omicron", 1)] :
      List (String × Nat)).flatMap
    (fun pc => List.replicate pc.2 pc.1)

/-- Witness for C5: the 15-performer scenario has a full head-10, and on a
column with two performers tied at 2 albums each the tied pair keeps its
first-encountered order. -/
theorem performer_album_counts_top10_witness :
    ((performer_album_counts fifteenPerformers).take 10).length = 10 ∧
    List.Sublist [("B", 2), ("A", 2)] (performer_album_counts ["B", "A", "B", "A"]) :=
  ⟨(performer_album_counts_top10.1 fifteenPerformers (by decide) (by decide)).1,
   performer_album_counts_top10.2 ["B", "A", "B", "A"] ("B", 2) ("A", 2) (by decide)
     (by decide)⟩

/-! ### Claim C3: sparse rows -/

/-- C3: sparse-row handling.  For two RawBinding rows where row 1 binds the
variables `a` and `b` and row 2 binds only `a`, the ResultTable built by
`execute_query` has column set exactly `[a, b]` (the union, in first-seen
order), and row 2's FlatRow has no entry for `b`: the lookup is `none`, an
explicit absence, and in particular not the string `s` for any `s` (so not
the empty string). -/
theorem sparse_rows_columns_union (a b : String) (ca cb ca2 : Cell) (s : String)
    (h : a ≠ b) :
    (mkDataFrame (transform2dicts [[(a, ca), (b, cb)], [(a, ca2)]])).columns = [a, b] ∧
    (transformRow [(a, ca2)]).lookup b = none ∧
    (transformRow [(a, ca2)]).lookup b ≠ some s := by
  have hba : (b == a) = false := beq_eq_false_iff_ne.mpr (Ne.symm h)
  have hnone : (transformRow [(a, ca2)]).lookup b = none := by
    simp [transformRow, List.lookup_cons, hba]
  refine ⟨?_, hnone, by simp [hnone]⟩
  show dfColumns [[(a, ca.value), (b, cb.value)], [(a, ca2.value)]] = [a, b]
  simp [dfColumns, Ne.symm h]

/-- Witness for C3 at concrete variable names and cells. -/
theorem sparse_rows_columns_union_witness :
    ("a" : String) ≠ "b" ∧
    ((mkDataFrame (transform2dicts
        [[("a", Cell.mk "x" []), ("b", Cell.mk "y" [])], [("a", Cell.mk "z" [])]])).columns
        = ["a", "b"] ∧
      (transformRow [("a", Cell.mk "z" [])]).lookup "b" = none ∧
      (transformRow [("a", Cell.mk "z" [])]).lookup "b" ≠ some "") :=
  ⟨by decide,
   sparse_rows_columns_union "a" "b" (Cell.mk "x" []) (Cell.mk "y" [])
     (Cell.mk "z" []) "" (by decide)⟩

/-! ### Claims C8 and C9: the albums table across the render pipeline -/

/-- Model of the coerced `publicationDate` column value after line 130: a
pandas Timestamp (rendered here at the year granularity the program
observes), or `NaT` when the parse failed. -/
def coerce_datetime (s : String) : String :=
  match parseYear s with
  | some y => "Timestamp " ++ toString y
  | none => "NaT"

/-- Model of a `release_year` cell after line 131 (`.dt.year`): the year,
or `NaN` when the date was `NaT`. -/
def year_value (s : String) : String :=
  match parseYear s with
  | some y => toString y
  | none => "NaN"

/-- Model of the in-place mutation of one albums row by lines 130-131: the
`publicationDate` entry is overwritten with the coerced datetime and a
`release_year` column is appended. -/
def augment_row (row : FlatRow) : FlatRow :=
  (row.map (fun kv =>
    if kv.1 = "publicationDate" then (kv.1, coerce_datetime kv.2) else kv)) ++
  [("release_year", year_value ((row.lookup "publicationDate").getD ""))]

/-- The albums table as it stands after lines 130-131 and all renders: the
aggregations and chart calls (lines 132-181) only read it, so this is also
its state after all charts are rendered. -/
def albums_after_render (df : List FlatRow) : List FlatRow :=
  df.map augment_row

/-- The `albums_df['performerLabel']` column (pandas drops missing values
when counting). -/
def performer_column (df : List FlatRow) : List String :=
  df.filterMap (fun row => row.lookup "performerLabel")

/-- The labels of the top-10 performer view `performer_album_counts.head(10)`
(lines 145-147). -/
def top10_performers (df : List FlatRow) : List String :=
  ((performer_album_counts (performer_column df)).take 10).map Prod.fst

/-- Model of `sns.scatterplot(data=albums_df, x='performerLabel',
y='release_year', ...)` (line 175): one point per row of the albums table
whose performer label and release year are both present.  The whole table
is passed; no restriction to any performer subset occurs. -/
def scatter_points (df : List FlatRow) : List (String × Nat) :=
  df.filterMap (fun row =>
    match row.lookup "performerLabel",
        parseYear ((row.lookup "publicationDate").getD "") with
    | some p, some y => some (p, y)
    | _, _ => none)

/-- An albums table with eleven distinct performers of one album each: the
eleventh performer is outside the top-10 view (ties keep first-encountered
order, so the head-10 is P01 through P10). -/
def elevenPerformerAlbums : List FlatRow :=
  [[("performerLabel", "P01"), ("publicationDate", "1960-01-01T00:00:00Z")],
   [("performerLabel", "P02"), ("publicationDate", "1961-01-01T00:00:00Z")],
   [("performerLabel", "P03"), ("publicationDate", "1962-01-01T00:00:00Z")],
   [("performerLabel", "P04"), ("publicationDate", "1963-01-01T00:00:00Z")],
   [("performerLabel", "P05"), ("publicationDate", "1964-01-01T00:00:00Z")],
   [("performerLabel", "P06"), ("publicationDate", "1965-01-01T00:00:00Z")],
   [("performerLabel", "P07"), ("publicationDate", "1966-01-01T00:00:00Z")],
   [("performerLabel", "P08"), ("publicationDate", "1967-01-01T00:00:00Z")],
   [("performerLabel", "P09"), ("publicationDate", "1968-01-01T00:00:00Z")],
   [("performerLabel", "P10"), ("publicationDate", "1969-01-01T00:00:00Z")],
   [("performerLabel", "P11"), ("publicationDate", "1970-01-01T00:00:00Z")]]

/-- C8 counterexample: the scatter render receives the whole albums table,
so the row of performer P11 — who is not among the top-10 performers by
album count — is plotted, contradicting the claim that rows of performers
outside the top 10 are not plotted. -/
theorem scatter_includes_non_top10_row :
    ("P11", 1970) ∈ scatter_points elevenPerformerAlbums ∧
    "P11" ∉ top10_performers elevenPerformerAlbums := by
  decide

/-- C8 amended: the scatter render plots performer label against release
year for every row of the albums table that has a performer label and a
parseable date, with no restriction to the top-10 performers. -/
theorem scatter_plots_every_row (df : List FlatRow) (row : FlatRow)
    (p : String) (y : Nat) (hrow : row ∈ df)
    (hp : row.lookup "performerLabel" = some p)
    (hy : parseYear ((row.lookup "publicationDate").getD "") = some y) :
    (p, y) ∈ scatter_points df := by
  refine List.mem_filterMap.mpr ⟨row, hrow, ?_⟩
  rw [hp, hy]

/-- Witness for C8's amended claim at the concrete P11 row. -/
theorem scatter_plots_every_row_witness :
    (("P11", 1970) : String × Nat) ∈ scatter_points elevenPerformerAlbums :=
  scatter_plots_every_row elevenPerformerAlbums
    [("performerLabel", "P11"), ("publicationDate", "1970-01-01T00:00:00Z")]
    "P11" 1970 (by decide) (by decide) (by decide)

/-! ### Claim C9: the table is mutated between fetch and render -/

theorem lookup_append_or (l1 l2 : FlatRow) (k : String) :
    (l1 ++ l2).lookup k = (l1.lookup k).or (l2.lookup k) := by
  induction l1 with
  | nil => simp
  | cons kv rest ih =>
    obtain ⟨key, v⟩ := kv
    cases h : k == key <;> simp [List.lookup_cons, h, ih]

theorem lookup_coerce_map (row : FlatRow) (k : String) (hk : k ≠ "publicationDate") :
    (row.map (fun kv =>
      if kv.1 = "publicationDate" then (kv.1, coerce_datetime kv.2) else kv)).lookup k
      = row.lookup k := by
  induction row with
  | nil => rfl
  | cons kv rest ih =>
    obtain ⟨key, v⟩ := kv
    by_cases hkey : key = "publicationDate"
    · subst hkey
      have hbk : (k == "publicationDate") = false := beq_eq_false_iff_ne.mpr hk
      simp [List.lookup_cons, hbk, ih]
    · simp only [List.map_cons, if_neg hkey]
      cases h : k == key <;> simp [List.lookup_cons, h, ih]

theorem augment_row_lookup (row : FlatRow) (k : String)
    (hk1 : k ≠ "publicationDate") (hk2 : k ≠ "release_year") :
    (augment_row row).lookup k = row.lookup k := by
  have hbk : (k == "release_year") = false := beq_eq_false_iff_ne.mpr hk2
  rw [augment_row, lookup_append_or, lookup_coerce_map row k hk1]
  simp [List.lookup_cons, hbk]

/-- The sample albums row a fetch returns, with the four albums-query
columns. -/
def albumRowSample : FlatRow :=
  [("album", "http://www.wikidata.org/entity/Q1"), ("albumLabel", "Album One"),
   ("performerLabel", "Performer One"), ("publicationDate", "1965-05-01T00:00:00Z")]

/-- The one-row albums table the fetch returns for the sample row. -/
def albumsFetchedSample : List FlatRow :=
  [albumRowSample]

/-- C9 counterexample: after the charts are rendered the albums table does
not equal the table the fetch returned — lines 130-131 overwrote the
`publicationDate` column and appended a `release_year` column in place. -/
theorem albums_table_mutated :
    albums_after_render albumsFetchedSample ≠ albumsFetchedSample := by
  decide

/-- C9 amended: the albums table is mutated exactly once between fetch and
render — line 130 overwrites `publicationDate` with parsed datetimes and
line 131 appends a `release_year` column — and is only read afterwards.
Row count is preserved, each mutated row stays in the table, every column
other than `publicationDate` and `release_year` is unchanged, and the new
`release_year` column is present; but the resulting table is not the
fetched one. -/
theorem albums_after_render_spec (df : List FlatRow) (row : FlatRow) (k : String)
    (hrow : row ∈ df) (hk1 : k ≠ "publicationDate") (hk2 : k ≠ "release_year") :
    (albums_after_render df).length = df.length ∧
    augment_row row ∈ albums_after_render df ∧
    (augment_row row).lookup k = row.lookup k ∧
    (augment_row row).lookup "release_year" ≠ none := by
  refine ⟨by simp [albums_after_render], List.mem_map_of_mem _ hrow,
    augment_row_lookup row k hk1 hk2, ?_⟩
  rw [augment_row, lookup_append_or]
  cases h : (row.map (fun kv =>
      if kv.1 = "publicationDate" then (kv.1, coerce_datetime kv.2) else kv)).lookup
        "release_year" <;>
    simp [h, List.lookup_cons]

/-- Witness for C9's amended claim at the sample albums row. -/
theorem albums_after_render_spec_witness :
    (albumRowSample ∈ albumsFetchedSample) ∧
    (("performerLabel" : String) ≠ "publicationDate") ∧
    (("performerLabel" : String) ≠ "release_year") ∧
    ((albums_after_render albumsFetchedSample).length = albumsFetchedSample.length ∧
      augment_row albumRowSample ∈ albums_after_render albumsFetchedSample ∧
      (augment_row albumRowSample).lookup "performerLabel" =
        albumRowSample.lookup "performerLabel" ∧
      (augment_row albumRowSample).lookup "release_year" ≠ none) :=
  ⟨by decide, by decide, by decide,
   albums_after_render_spec albumsFetchedSample albumRowSample "performerLabel"
     (by decide) (by decide) (by decide)⟩

end AzRetro
